import Mathlib

/-
Shallow embedding of onfido/ecr-mirror (src/ecr_mirror/__init__.py).

External collaborators (the boto3 ECR client and the skopeo image-transfer
tool) are modelled as explicit function parameters:
  - `login : Option String` models `ecr_login` (the decoded user:password
    token, or `none` when authentication raises — run-fatal);
  - `listTags : String → Option (List String)` models the
    `skopeo list-tags` invocation in `find_tags_to_copy` (`none` models a
    non-zero exit of the subprocess, which raises CalledProcessError);
  - `runCopy : List String → SkopeoOutcome` models the
    `skopeo copy` invocation (`subprocess.check_output`) in `copy_image`.
Python exceptions are modelled with `Except RunError`.
-/

namespace EcrMirror

/-- The `Context` dataclass. The boto3 `client` field is an external
collaborator and is modelled by the explicit `login`/`listTags`/`runCopy`
parameters where the source uses it. -/
structure Context where
  registry_id : String
  override_os : String
  override_arch : String
  deriving DecidableEq

/-- The `MirroredRepo` dataclass (field order as in the source). -/
structure MirroredRepo where
  upstream_image : String
  repository_uri : String
  upstream_tags : List String
  ignore_tags : List String
  deriving DecidableEq

/-- Outcome of running `skopeo copy` via `subprocess.check_output`:
success, or a `CalledProcessError` carrying `returncode` and the captured
combined output. -/
inductive SkopeoOutcome where
  | success
  | failure (returncode : Int) (output : String)
  deriving DecidableEq

/-- The Python exceptions that can propagate out of the embedded
functions: the ValueError of the tuple unpacking `source.split(":")` in
`copy`, a failure of `ecr_login`, and the CalledProcessError of the
`skopeo list-tags` subprocess in `find_tags_to_copy`. -/
inductive RunError where
  | valueError
  | authError
  | listTagsError (image : String)
  deriving DecidableEq

/-- All suffixes of a list, longest first (the list itself down to `[]`). -/
def suffixes : List Char → List (List Char)
  | [] => [[]]
  | c :: cs => (c :: cs) :: suffixes cs

/-- Shell-glob matching on character lists: `globMatch pattern name`.
Embeds Python's `fnmatch.fnmatch` in the fragment the program relies on
(spec section 4.1: standard shell-style wildcard matching, `*` = any run of
characters, `?` = a single character, other characters literal; the whole
name must match). -/
def globMatch : List Char → List Char → Bool
  | [], s => s.isEmpty
  | '*' :: ps, s => (suffixes s).any (fun t => globMatch ps t)
  | '?' :: ps, s =>
    match s with
    | [] => false
    | _ :: cs => globMatch ps cs
  | p :: ps, s =>
    match s with
    | [] => false
    | c :: cs => p == c && globMatch ps cs

/-- `fnmatch.fnmatch(name, pattern)` on strings (POSIX case handling is the
identity, so `normcase` is dropped). -/
def fnmatch (name pat : String) : Bool :=
  globMatch pat.data name.data

/-- The inner `does_match(tag)` predicate of `find_tags_to_copy`.
`tag_patterns.isEmpty` embeds Python's truthiness test `not tag_patterns`. -/
def does_match (tag_patterns ignore_tags : List String) (tag : String) : Bool :=
  let any_matches := tag_patterns.any (fun pat => fnmatch tag pat)
  let any_negates := ignore_tags.any (fun pat => fnmatch tag pat)
  if tag_patterns.isEmpty && !any_negates then true
  else if any_negates then false
  else any_matches

/-- The final generator expression of `find_tags_to_copy`:
`tag for tag in all_tags if does_match(tag)`, collected into a list. -/
def matching_tags (tag_patterns ignore_tags all_tags : List String) : List String :=
  all_tags.filter (does_match tag_patterns ignore_tags)

/-- `find_tags_to_copy(image_name, tag_patterns, ignore_tags)`: run
`skopeo list-tags` for the image (external, modelled by `listTags`; `none`
models the subprocess raising CalledProcessError, which this function does
not catch) and filter the returned tags with `does_match`. -/
def find_tags_to_copy (listTags : String → Option (List String))
    (image_name : String) (tag_patterns ignore_tags : List String) :
    Except RunError (List String) :=
  match listTags image_name with
  | none => .error (.listTagsError image_name)
  | some all_tags => .ok (matching_tags tag_patterns ignore_tags all_tags)

example : fnmatch "3.8" "3.*" = true := by decide
example : fnmatch "3.10" "3.*" = true := by decide
example : fnmatch "latest" "3.*" = false := by decide
example : fnmatch "3.10" "3.9" = false := by decide
example : fnmatch "" "" = true := by decide
example : fnmatch "a" "" = false := by decide
example : fnmatch "v1.0" "v?.?" = true := by decide

/-- The list comprehension of `copy_repositories`:
`[(repo, tag) for repo in repositories for tag in find_tags_to_copy(...)]`.
An exception raised by any `find_tags_to_copy` call aborts the whole
comprehension, so the result is monadic in `Except`. -/
def expand_items (listTags : String → Option (List String)) :
    List MirroredRepo → Except RunError (List (MirroredRepo × String))
  | [] => .ok []
  | repo :: rest =>
    match find_tags_to_copy listTags repo.upstream_image
        repo.upstream_tags repo.ignore_tags with
    | .error e => .error e
    | .ok tags =>
      match expand_items listTags rest with
      | .error e => .error e
      | .ok more => .ok (tags.map (fun tag => (repo, tag)) ++ more)

/-- The source/destination references handed to `copy_image` for each work
item by the `pool.map` lambda in `copy_repositories`:
`(upstream_image:tag, repository_uri:tag)`. -/
def work_refs (items : List (MirroredRepo × String)) : List (String × String) :=
  items.map (fun item =>
    (item.1.upstream_image ++ ":" ++ item.2, item.1.repository_uri ++ ":" ++ item.2))

/-- `copy_repositories(client, registry_id, repositories)`: obtain the auth
token via `ecr_login` (run-fatal if it raises), build the work-item list,
then dispatch every item to the thread pool. The dispatched work is
modelled as the list of `(source_ref, dest_ref)` pairs the pool passes to
`copy_image` (each such call returns normally — see `copy_image`). -/
def copy_repositories (login : Option String)
    (listTags : String → Option (List String))
    (repositories : List MirroredRepo) : Except RunError (List (String × String)) :=
  match login with
  | none => .error .authError
  | some _token => (expand_items listTags repositories).map work_refs

/-- `" ".join(args)`. -/
def joinSpace : List String → String
  | [] => ""
  | [s] => s
  | s :: rest => s ++ " " ++ joinSpace rest

/-- Python slicing `output[100:]`: drop the first 100 elements. -/
def pyDrop (n : Nat) (s : String) : String :=
  String.mk (s.data.drop n)

/-- The argument list `args` built by `copy_image` (credentials are
appended separately, and are absent from the reported error line). -/
def copy_args (ctx : Context) (source_image dest_image : String) : List String :=
  ["skopeo", "copy", "docker://" ++ source_image, "docker://" ++ dest_image,
   "--override-os=" ++ ctx.override_os] ++
  (if ctx.override_arch == "all" then ["--multi-arch=all"]
   else ["--override-arch=" ++ ctx.override_arch])

/-- `copy_image(ctx, source_image, dest_image, token, sleep_time)`: invoke
`skopeo copy` (modelled by `runCopy`); a CalledProcessError is caught and
reported (`args` joined with the return code, then the output with its
first 100 bytes dropped). The returned value is the list of lines echoed
to the terminal; the function never raises, so the result is always
`.ok`. The trailing `time.sleep` is real time and is not modelled. -/
def copy_image (runCopy : List String → SkopeoOutcome) (ctx : Context)
    (source_image dest_image token : String) : Except RunError (List String) :=
  let args := copy_args ctx source_image dest_image
  let header := "Copying " ++ source_image ++ " to " ++ dest_image
  match runCopy (args ++ ["--dest-creds=" ++ token]) with
  | .success => .ok [header]
  | .failure returncode output =>
    .ok [header,
         joinSpace args ++ " raised an error: " ++ toString returncode,
         "Last output: " ++ pyDrop 100 output]

/-- Python `str.split(sep)` for a single-character separator (the program
splits only on the one-character strings ":" and "/"). -/
def splitChar (sep : Char) : List Char → List (List Char)
  | [] => [[]]
  | c :: cs =>
    let rest := splitChar sep cs
    if c == sep then [] :: rest
    else
      match rest with
      | [] => [[c]]
      | piece :: more => (c :: piece) :: more

/-- The `copy` CLI command: unpack `source.split(":")` into
`upstream_image, upstream_tag` (ValueError unless exactly two pieces),
build a single `MirroredRepo`, and hand it to `copy_repositories`. -/
def copy_command (login : Option String)
    (listTags : String → Option (List String))
    (source destination_repository : String) :
    Except RunError (List (String × String)) :=
  match splitChar ':' source.data with
  | [upstream_image, upstream_tag] =>
    copy_repositories login listTags
      [{ upstream_image := String.mk upstream_image,
         repository_uri := destination_repository,
         upstream_tags := [String.mk upstream_tag],
         ignore_tags := [] }]
  | _ => .error .valueError

/-- One repository as seen by the discoverer: its URI (from
`describe_repositories`) together with the resource tags returned by
`list_tags_for_resource` for its ARN, as a key/value list. -/
structure ECRRepo where
  repositoryUri : String
  tags : List (String × String)
  deriving DecidableEq

/-- The dict comprehension building `tags_dict` from the Key/Value items
of `list_tags_for_resource`, followed by lookup: a later entry for the
same key overwrites an earlier one. -/
def tagsDict (tags : List (String × String)) (key : String) : Option String :=
  tags.foldl (fun acc kv => if kv.1 == key then some kv.2 else acc) none

/-- The metadata-value decoding `value.replace("+", "*").split("/")` used
for the `upstream-tags` and `ignore-tags` keys. -/
def parsePatterns (value : String) : List String :=
  (splitChar '/' (value.data.map (fun c => if c == '+' then '*' else c))).map String.mk

/-- The inner `filter_repo` of `find_repositories`: a repository yields a
`MirroredRepo` exactly when its tags dict has the `upstream-image` key;
the pattern keys default to `""` via `tags_dict.get(key, "")`. -/
def filter_repo (repo : ECRRepo) : Option MirroredRepo :=
  match tagsDict repo.tags "upstream-image" with
  | some image =>
    some { upstream_image := image,
           repository_uri := repo.repositoryUri,
           upstream_tags := parsePatterns ((tagsDict repo.tags "upstream-tags").getD ""),
           ignore_tags := parsePatterns ((tagsDict repo.tags "ignore-tags").getD "") }
  | none => none

/-- `find_repositories(client, registry_id)`: map `filter_repo` over all
repositories and yield the non-`None` results (the `pool.map` over repos,
collected in order). -/
def find_repositories (all_repositories : List ECRRepo) : List MirroredRepo :=
  all_repositories.filterMap filter_repo

example : parsePatterns "v1.+/v2.+" = ["v1.*", "v2.*"] := by decide
example : parsePatterns "" = [""] := by decide

/-- C3: for every tag list, the tag matcher with an empty include pattern
list and an empty exclude pattern list selects every tag: the selection is
exactly the input list. -/
theorem matching_tags_empty_empty (all_tags : List String) :
    matching_tags [] [] all_tags = all_tags :=
  List.filter_eq_self.mpr (fun _ _ => rfl)

/-- C4: a tag that matches at least one exclude pattern is rejected by
`does_match` and is absent from the selected tags, no matter which include
patterns it also matches. -/
theorem does_match_exclude_wins (tag : String)
    (tag_patterns ignore_tags all_tags : List String)
    (h : ∃ pat ∈ ignore_tags, fnmatch tag pat = true) :
    does_match tag_patterns ignore_tags tag = false ∧
      tag ∉ matching_tags tag_patterns ignore_tags all_tags := by
  have hneg : ignore_tags.any (fun pat => fnmatch tag pat) = true := by
    rcases h with ⟨pat, hpat, hm⟩
    exact List.any_eq_true.mpr ⟨pat, hpat, hm⟩
  have hfalse : does_match tag_patterns ignore_tags tag = false := by
    simp [does_match, hneg]
  refine ⟨hfalse, fun hmem => ?_⟩
  have := (List.mem_filter.mp hmem).2
  rw [hfalse] at this
  cases this

/-- C4 witness: the tag "3.9" matches the exclude pattern "3.9", so it is
rejected even though it also matches the include pattern "3.*". -/
theorem does_match_exclude_wins_witness :
    does_match ["3.*"] ["3.9"] "3.9" = false ∧
      "3.9" ∉ matching_tags ["3.*"] ["3.9"] ["3.8", "3.9"] :=
  does_match_exclude_wins "3.9" ["3.*"] ["3.9"] ["3.8", "3.9"] (by decide)

/-- C5: end-to-end expansion for the descriptor with upstream image
"library/alpine", destination "123.dkr/alpine-mirror", include patterns
["3.*"] and exclude patterns ["3.9"]: with the upstream listing
["3.8", "3.9", "3.10", "latest"] the orchestrator dispatches exactly the
work items for tags 3.8 and 3.10, each copying upstream_image:tag to
repository_uri:tag. -/
theorem alpine_scenario :
    copy_repositories (some "token")
      (fun image =>
        if image == "library/alpine" then some ["3.8", "3.9", "3.10", "latest"] else none)
      [{ upstream_image := "library/alpine", repository_uri := "123.dkr/alpine-mirror",
         upstream_tags := ["3.*"], ignore_tags := ["3.9"] }]
      = .ok [("library/alpine:3.8", "123.dkr/alpine-mirror:3.8"),
             ("library/alpine:3.10", "123.dkr/alpine-mirror:3.10")] := rfl

/-- Does a run outcome consist of the uncaught CalledProcessError of a
`skopeo list-tags` subprocess (the exception that escapes
`find_tags_to_copy` and the work-item list comprehension)? -/
def isListTagsFailure (outcome : Except RunError (List (String × String))) : Bool :=
  match outcome with
  | .error (.listTagsError _) => true
  | _ => false

/-- If some repository's upstream tag listing fails, the work-item list
comprehension of `copy_repositories` raises: the whole expansion is an
uncaught list-tags error. -/
theorem expand_items_error_of_listing_failure
    (listTags : String → Option (List String))
    (repositories : List MirroredRepo) (repo : MirroredRepo)
    (hmem : repo ∈ repositories)
    (hfail : listTags repo.upstream_image = none) :
    ∃ image, expand_items listTags repositories = .error (.listTagsError image) ∧
      listTags image = none := by
  induction repositories with
  | nil => cases hmem
  | cons head rest ih =>
    cases hhead : listTags head.upstream_image with
    | none =>
      exact ⟨head.upstream_image, by simp [expand_items, find_tags_to_copy, hhead], hhead⟩
    | some tags =>
      have hmem' : repo ∈ rest := by
        rcases List.mem_cons.mp hmem with heq | h
        · subst heq
          rw [hfail] at hhead
          cases hhead
        · exact h
      rcases ih hmem' with ⟨image, himage, hnone⟩
      exact ⟨image, by simp [expand_items, find_tags_to_copy, hhead, himage], hnone⟩

/-- C1 (amended): a failure while querying the upstream source for one
descriptor's tag listing is NOT contained to that descriptor: the
exception propagates out of the work-item expansion of
`copy_repositories`, the run aborts, and no work item is dispatched for
any descriptor of that run. -/
theorem copy_repositories_listing_failure_aborts_run (token : String)
    (listTags : String → Option (List String))
    (repositories : List MirroredRepo) (repo : MirroredRepo)
    (hmem : repo ∈ repositories)
    (hfail : listTags repo.upstream_image = none) :
    isListTagsFailure (copy_repositories (some token) listTags repositories) = true := by
  rcases expand_items_error_of_listing_failure listTags repositories repo hmem hfail
    with ⟨image, himage, _⟩
  simp [copy_repositories, himage, Except.map, isListTagsFailure]

/-- The upstream listing used for the C1 scenario: the image "good" has
one tag, any other image's listing fails. -/
def c1ListTags : String → Option (List String) :=
  fun image => if image == "good" then some ["1.0"] else none

/-- A descriptor whose upstream tag listing fails. -/
def c1BadRepo : MirroredRepo :=
  { upstream_image := "bad", repository_uri := "bad-mirror",
    upstream_tags := ["*"], ignore_tags := [] }

/-- A descriptor whose upstream tag listing succeeds. -/
def c1GoodRepo : MirroredRepo :=
  { upstream_image := "good", repository_uri := "good-mirror",
    upstream_tags := ["*"], ignore_tags := [] }

/-- C1 witness: in the run over the two descriptors `c1BadRepo` (failing
listing) and `c1GoodRepo`, the run aborts with the list-tags error. -/
theorem copy_repositories_listing_failure_aborts_run_witness :
    isListTagsFailure (copy_repositories (some "token") c1ListTags [c1BadRepo, c1GoodRepo])
      = true :=
  copy_repositories_listing_failure_aborts_run "token" c1ListTags [c1BadRepo, c1GoodRepo]
    c1BadRepo (by decide) rfl

/-- C1 counterexample: with the failing descriptor `c1BadRepo` present, the
whole run errors and the unaffected descriptor `c1GoodRepo` gets no work
item dispatched — even though on its own it would have produced one. The
claim that the other descriptors are still resolved and dispatched is
false. -/
theorem c1_counterexample :
    copy_repositories (some "token") c1ListTags [c1BadRepo, c1GoodRepo]
        = .error (.listTagsError "bad") ∧
      copy_repositories (some "token") c1ListTags [c1GoodRepo]
        = .ok [("good:1.0", "good-mirror:1.0")] :=
  ⟨rfl, rfl⟩

/-- C2: evaluating `filter_repo` on a repository that carries the
`upstream-image` key but neither `upstream-tags` nor `ignore-tags`: the
produced descriptor's include pattern list is the singleton `[""]` (since
`"".split("/") == [""]`), not the empty list the spec requires — and
likewise for the exclude pattern list. -/
theorem filter_repo_absent_upstream_tags_eval :
    filter_repo { repositoryUri := "123.dkr/alpine-mirror",
                  tags := [("upstream-image", "library/alpine")] }
        = some { upstream_image := "library/alpine",
                 repository_uri := "123.dkr/alpine-mirror",
                 upstream_tags := [""], ignore_tags := [""] } ∧
      ([""] : List String) ≠ [] :=
  ⟨rfl, by decide⟩

/-- C6: `find_repositories` keeps exactly the repositories for which
`filter_repo` yields a descriptor, and `filter_repo` yields a descriptor
precisely when the repository's metadata tag dict has the
`upstream-image` key; a repository lacking the key maps to `none` and is
silently skipped. -/
theorem find_repositories_upstream_image_key
    (all_repositories : List ECRRepo) (repo : ECRRepo) :
    find_repositories all_repositories = all_repositories.filterMap filter_repo ∧
      (filter_repo repo).isSome = (tagsDict repo.tags "upstream-image").isSome := by
  refine ⟨rfl, ?_⟩
  cases h : tagsDict repo.tags "upstream-image" <;> simp [filter_repo, h]

/-- The include pattern list `[""]` selects no non-empty tag, whatever the
exclude patterns are: `fnmatch(tag, "")` holds only for the empty tag, and
with a non-empty include list the `does_match` default branch is dead. -/
theorem matching_tags_empty_string_pattern (ignore_tags all_tags : List String)
    (h : ∀ tag ∈ all_tags, tag ≠ "") :
    matching_tags [""] ignore_tags all_tags = [] := by
  rw [matching_tags, List.filter_eq_nil_iff]
  intro tag htag
  have hdata : tag.data.isEmpty = false := by
    cases tag with
    | mk l =>
      cases l with
      | nil => exact absurd (by decide) (h ⟨[]⟩ htag)
      | cons c cs => rfl
  cases hneg : ignore_tags.any (fun pat => fnmatch tag pat) <;>
    simp [does_match, fnmatch, globMatch, hdata, hneg]

/-- C9: a repository carrying `upstream-image` but not `upstream-tags`
gets the include pattern list `[""]`; on any upstream listing of non-empty
tags the tag matcher then selects nothing, so nothing is mirrored for that
repository. -/
theorem discovered_without_upstream_tags_mirrors_nothing
    (uri image : String) (meta : List (String × String)) (all_tags : List String)
    (h1 : tagsDict meta "upstream-image" = some image)
    (h2 : tagsDict meta "upstream-tags" = none)
    (h3 : ∀ tag ∈ all_tags, tag ≠ "") :
    filter_repo { repositoryUri := uri, tags := meta }
        = some { upstream_image := image, repository_uri := uri,
                 upstream_tags := [""],
                 ignore_tags := parsePatterns ((tagsDict meta "ignore-tags").getD "") } ∧
      matching_tags [""] (parsePatterns ((tagsDict meta "ignore-tags").getD "")) all_tags
        = [] := by
  constructor
  · simp [filter_repo, h1, h2]
    decide
  · exact matching_tags_empty_string_pattern _ _ h3

/-- C9 witness: a repository tagged only with
`upstream-image = library/redis` yields include patterns `[""]`, and on
the listing ["6.2", "latest"] nothing is selected. -/
theorem discovered_without_upstream_tags_mirrors_nothing_witness :
    filter_repo { repositoryUri := "mirror-uri",
                  tags := [("upstream-image", "library/redis")] }
        = some { upstream_image := "library/redis", repository_uri := "mirror-uri",
                 upstream_tags := [""],
                 ignore_tags := parsePatterns
                   ((tagsDict [("upstream-image", "library/redis")] "ignore-tags").getD "") } ∧
      matching_tags [""]
          (parsePatterns ((tagsDict [("upstream-image", "library/redis")] "ignore-tags").getD ""))
          ["6.2", "latest"]
        = [] :=
  discovered_without_upstream_tags_mirrors_nothing "mirror-uri" "library/redis"
    [("upstream-image", "library/redis")] ["6.2", "latest"] rfl rfl (by decide)

/-- C7 (amended): the `copy` command bypasses discovery and builds one
descriptor from its arguments, but it still lists the upstream tags and
uses the given tag as a glob include pattern: it dispatches one work item
per listed upstream tag matching that pattern (each copying
`image:t` to `destination-repository:t`) — zero items when no listed tag
matches, several when the pattern matches several. -/
theorem copy_command_glob_expansion (token destination_repository source : String)
    (listTags : String → Option (List String))
    (image tag : List Char) (all_tags : List String)
    (hsplit : splitChar ':' source.data = [image, tag])
    (hlist : listTags (String.mk image) = some all_tags) :
    copy_command (some token) listTags source destination_repository
      = .ok ((all_tags.filter (does_match [String.mk tag] [])).map
          (fun t => (String.mk image ++ ":" ++ t, destination_repository ++ ":" ++ t))) := by
  simp [copy_command, hsplit, copy_repositories, expand_items, find_tags_to_copy, hlist,
    matching_tags, work_refs, Except.map, List.map_map, Function.comp]

/-- The upstream listing used for the C7 scenario: "library/alpine" has
the tags 3.8 and latest; other images fail. -/
def c7ListTags : String → Option (List String) :=
  fun image => if image == "library/alpine" then some ["3.8", "latest"] else none

/-- C7 witness: `copy library/alpine:3.8 mirror-repo` with upstream
listing ["3.8", "latest"] dispatches the single work item copying
library/alpine:3.8 to mirror-repo:3.8. -/
theorem copy_command_glob_expansion_witness :
    copy_command (some "token") c7ListTags "library/alpine:3.8" "mirror-repo"
      = .ok ((["3.8", "latest"].filter (does_match [String.mk "3.8".data] [])).map
          (fun t => (String.mk "library/alpine".data ++ ":" ++ t, "mirror-repo" ++ ":" ++ t))) :=
  copy_command_glob_expansion "token" "mirror-repo" "library/alpine:3.8" c7ListTags
    "library/alpine".data "3.8".data ["3.8", "latest"] (by decide) rfl

/-- C7 counterexample: `copy library/alpine:9.9 123.dkr/alpine-mirror`
with upstream listing ["3.8"] dispatches ZERO work items — not exactly
one — because the requested tag matches nothing in the listing. -/
theorem c7_counterexample :
    copy_command (some "token")
        (fun image => if image == "library/alpine" then some ["3.8"] else none)
        "library/alpine:9.9" "123.dkr/alpine-mirror"
      = .ok [] := rfl

/-- C8: when the transfer subprocess exits non-zero, `copy_image` catches
the CalledProcessError and returns normally (`.ok`), reporting the joined
argument list (which carries both image references), the return code, and
the captured output with its first 100 bytes dropped. -/
theorem copy_image_failure_reported (runCopy : List String → SkopeoOutcome)
    (ctx : Context) (source_image dest_image token : String)
    (returncode : Int) (output : String)
    (h : runCopy (copy_args ctx source_image dest_image ++ ["--dest-creds=" ++ token])
          = .failure returncode output) :
    copy_image runCopy ctx source_image dest_image token
      = .ok ["Copying " ++ source_image ++ " to " ++ dest_image,
             joinSpace (copy_args ctx source_image dest_image)
               ++ " raised an error: " ++ toString returncode,
             "Last output: " ++ pyDrop 100 output] := by
  simp [copy_image, h]

/-- A transfer run that always fails with return code 1 and output
"boom". -/
def c8Run : List String → SkopeoOutcome :=
  fun _ => .failure 1 "boom"

/-- The process-wide context used in the C8 scenario. -/
def c8Ctx : Context :=
  { registry_id := "123456789", override_os := "linux", override_arch := "amd64" }

/-- C8 witness: a failing copy of library/alpine:3.8 returns normally with
the three reported lines. -/
theorem copy_image_failure_reported_witness :
    copy_image c8Run c8Ctx "library/alpine:3.8" "mirror:3.8" "user:pass"
      = .ok ["Copying library/alpine:3.8 to mirror:3.8",
             joinSpace (copy_args c8Ctx "library/alpine:3.8" "mirror:3.8")
               ++ " raised an error: " ++ toString (1 : Int),
             "Last output: " ++ pyDrop 100 "boom"] :=
  copy_image_failure_reported c8Run c8Ctx "library/alpine:3.8" "mirror:3.8" "user:pass"
    1 "boom" rfl

/-- C10: when `source.split(":")` does not yield exactly two pieces (no
colon, or more than one colon), the `copy` command raises the tuple-unpack
ValueError; the result does not depend on the authentication, tag-listing
or copy collaborators, so none of them is consulted. -/
theorem copy_command_bad_source_value_error (login : Option String)
    (listTags : String → Option (List String))
    (source destination_repository : String)
    (h : (splitChar ':' source.data).length ≠ 2) :
    copy_command login listTags source destination_repository = .error .valueError := by
  cases hs : splitChar ':' source.data with
  | nil => simp [copy_command, hs]
  | cons a t =>
    cases t with
    | nil => simp [copy_command, hs]
    | cons b u =>
      cases u with
      | nil =>
        rw [hs] at h
        cases h rfl
      | cons c v => simp [copy_command, hs]

/-- C10 witness: `copy ubuntu dest` (no colon in the source argument)
fails with the ValueError, whatever the collaborators do. -/
theorem copy_command_bad_source_value_error_witness :
    copy_command (some "token") (fun _ => some ["latest"]) "ubuntu" "dest"
      = .error .valueError :=
  copy_command_bad_source_value_error (some "token") (fun _ => some ["latest"])
    "ubuntu" "dest" (by decide)

end EcrMirror
